import Mathlib

/-!
Shallow embedding of the shaku dependency-injection container core
(src/shaku/src/container/container.rs and src/shaku/src/provider.rs).

The container composes a module (static interface-to-implementation bindings)
with a provider Override Map.  Component singletons are reference-counted
shared handles (Rust `Arc`); providers are factories invoked anew on every
`provide` call, returning an exclusively owned fresh instance or an opaque
construction error.

Modelling decisions:
* Interface types, heap addresses, provider-function identities and opaque
  error values are all `Nat`.  A type-keyed map becomes a function
  `Iface → Option _` with exact-key lookup.
* Reference-counted sharing is modelled by a `Heap`: a strong count per
  address plus an allocation counter (`nextAddr`) giving fresh addresses for
  newly boxed provider instances.
* Provider function bodies are user code; they are modelled by an external
  environment `ProviderEnv` mapping a function identity to its semantics
  `Container → Heap → Except Err (Addr × Heap)`.  A failing provider hands
  back only the error value (Rust drops its partial state), mirroring
  `Result<Box<I>, Box<dyn Error>>`.
* `Module` member access (`get_ref`, `get_mut`, `M::Impl::provide`) and the
  `ContainerBuilder` are declared in repository files outside the provided
  sources; those pieces are modelled from the spec and marked as such in
  their doc comments.
-/

namespace Shaku

/-- Identity (address) of a heap allocation: the identity of a component
singleton instance or of a freshly boxed provided instance. -/
abbrev Addr := Nat

/-- Type-level identity of an interface (the `I` in `resolve::<I>`). -/
abbrev Iface := Nat

/-- Identity of a provider function (`ProviderFn<M, I>` value or a
`provide` routine of a `Provider` implementation). -/
abbrev PFnId := Nat

/-- Opaque provider construction error value (`Box<dyn Error>`). -/
abbrev Err := Nat

/-- Process allocation state: the strong reference count of every
reference-counted allocation, and the next fresh address handed out by the
allocator when a provider boxes a new instance. -/
structure Heap where
  counts : Addr → Nat
  nextAddr : Addr

/-- Modelled from the spec: the module (Binding Registry), whose declaration
lives outside the provided sources (only `HasComponent`/`HasProvider`
consumers appear in src).  Spec 4.1: typed lookup yielding the singleton
shared handle owned by the module for a component interface, and the default provider
implementation for a provided interface.  `components i` is the address of
the singleton `Arc` returned by `get_ref`/`get_mut`; `defaultProviders i` is
the identity of `M::Impl::provide` for interface `i`.  `none` models the
absence of a static binding (which in Rust is a failed trait bound, not a
runtime branch). -/
structure Module where
  components : Iface → Option Addr
  defaultProviders : Iface → Option PFnId

/-- The container (container.rs lines 17-20): owns the module and the
provider Override Map.  The Override Map (`ComponentMap` keyed by
`ProviderFn<M, I>`) is modelled from the spec 4.3 as an exact-key function:
`get` performs a type-checked exact match only, never a fuzzy one. -/
structure Container where
  module : Module
  provider_overrides : Iface → Option PFnId

/-- Semantics of provider functions: each identity denotes user code taking
the container (the code passes `self` to `provider_fn` and to
`M::Impl::provide`) and the current heap, and returning either a construction
error or the address of a freshly boxed instance together with the heap after
the allocations and resolutions performed by the provider. -/
abbrev ProviderEnv := PFnId → Container → Heap → Except Err (Addr × Heap)

/-- Bump the strong count of address `a` (semantics of `Arc::clone`). -/
def Heap.incr (h : Heap) (a : Addr) : Heap :=
  { h with counts := fun x => if x = a then h.counts x + 1 else h.counts x }

/-- Drop one external shared handle to address `a` (semantics of dropping an
`Arc`): the strong count decreases by one. -/
def Heap.dropHandle (h : Heap) (a : Addr) : Heap :=
  { h with counts := fun x => if x = a then h.counts x - 1 else h.counts x }

/-- `Container::resolve` (container.rs lines 56-61):
`Arc::clone(self.module.get_ref())` — a new shared handle to the singleton
the module owns for interface `i`; the clone increments the strong count and
allocates nothing.  `none` models the statically impossible case of a missing
`HasComponent` bound. -/
def Container.resolve (c : Container) (h : Heap) (i : Iface) : Option (Addr × Heap) :=
  (c.module.components i).map fun a => (a, h.incr a)

/-- `Container::resolve_ref` (container.rs lines 130-135):
`Arc::as_ref(self.module.get_ref())` — a borrowed reference to the
current instance of the singleton; no heap change. -/
def Container.resolve_ref (c : Container) (i : Iface) : Option Addr :=
  c.module.components i

/-- `Container::resolve_mut` (container.rs lines 166-171):
`Arc::get_mut(self.module.get_mut())` — a mutable reference to the singleton,
available exactly when the strong count of the underlying allocation is one
(no other shared handle exists); otherwise `none`. -/
def Container.resolve_mut (c : Container) (h : Heap) (i : Iface) : Option Addr :=
  (c.module.components i).bind fun a => if h.counts a = 1 then some a else none

/-- `Container::provide` (container.rs lines 95-103):
`self.provider_overrides.get::<ProviderFn<M, I>>()
   .map(|provider_fn| provider_fn(self))
   .unwrap_or_else(|| M::Impl::provide(self))`.
If the Override Map holds an override for `i`, invoke it with the container;
otherwise invoke the default provider of the module.  The outer `Option` models
the statically impossible case of a missing `HasProvider` bound. -/
def Container.provide (c : Container) (env : ProviderEnv) (h : Heap) (i : Iface) :
    Option (Except Err (Addr × Heap)) :=
  match c.provider_overrides i with
  | some fid => some (env fid c h)
  | none => (c.module.defaultProviders i).map fun fid => env fid c h

/-- Modelled from the spec: `ContainerBuilder` (declared outside the provided
sources; spec 4.4).  `new()` starts with an empty Override Map. -/
structure ContainerBuilder where
  overrides : Iface → Option PFnId

/-- Modelled from the spec: `ContainerBuilder::new()` — empty Override Map. -/
def ContainerBuilder.new : ContainerBuilder :=
  ⟨fun _ => none⟩

/-- Modelled from the spec: `ContainerBuilder::build()` moves the Override
Map and a constructed module into a Container (module construction is the
responsibility of the external registry, so the module is a parameter). -/
def ContainerBuilder.build (b : ContainerBuilder) (m : Module) : Container :=
  ⟨m, b.overrides⟩

/-- `Container::default` (container.rs lines 22-27): same as
`ContainerBuilder::new().build()`. -/
def Container.defaultContainer (m : Module) : Container :=
  ContainerBuilder.new.build m

/-- Modelled from the spec: `with_provider_override` (spec 4.4 and 4.3
insert) records a factory keyed by the exact interface type `i`,
last-write-wins. -/
def withProviderOverride (c : Container) (i : Iface) (fid : PFnId) : Container :=
  { c with provider_overrides := fun j => if j = i then some fid else c.provider_overrides j }

/-- A provider function that constructs a brand-new boxed instance (the
semantics of a provider whose logic does not intentionally share internal
sub-state): on success the returned address is fresh — not yet handed out
before the call, and consumed by the call. -/
def FreshProvider (f : Container → Heap → Except Err (Addr × Heap)) : Prop :=
  ∀ c h a h', f c h = Except.ok (a, h') → h.nextAddr ≤ a ∧ a < h'.nextAddr

/-- One client-visible operation on a container, for sequencing resolution
calls against the threaded allocation state. -/
inductive Op where
  | opResolve (i : Iface)
  | opResolveRef (i : Iface)
  | opResolveMut (i : Iface)
  | opProvide (i : Iface)
  | opDrop (a : Addr)

/-- The client-visible outcome of one operation. -/
inductive Out where
  | outShared (a : Addr)
  | outRef (a : Addr)
  | outMut (r : Option Addr)
  | outProvided (r : Except Err Addr)
  | outDropped
  | outNoBinding

/-- Execute one operation, threading the container and the heap.  A failed
`provide` hands back no heap (the error value carries none): the caller
continues with the state it already had. -/
def runOp (env : ProviderEnv) (st : Container × Heap) : Op → (Container × Heap) × Out
  | Op.opResolve i =>
    match st.1.resolve st.2 i with
    | some (a, h') => ((st.1, h'), Out.outShared a)
    | none => (st, Out.outNoBinding)
  | Op.opResolveRef i =>
    match st.1.resolve_ref i with
    | some a => (st, Out.outRef a)
    | none => (st, Out.outNoBinding)
  | Op.opResolveMut i => (st, Out.outMut (st.1.resolve_mut st.2 i))
  | Op.opProvide i =>
    match st.1.provide env st.2 i with
    | some (Except.ok (a, h')) => ((st.1, h'), Out.outProvided (Except.ok a))
    | some (Except.error e) => (st, Out.outProvided (Except.error e))
    | none => (st, Out.outNoBinding)
  | Op.opDrop a => ((st.1, st.2.dropHandle a), Out.outDropped)

/-- Execute a sequence of operations, collecting the outcomes. -/
def run (env : ProviderEnv) (st : Container × Heap) : List Op → (Container × Heap) × List Out
  | [] => (st, [])
  | op :: ops =>
    let r := runOp env st op
    let rest := run env r.1 ops
    (rest.1, r.2 :: rest.2)

/-- Concrete module for evaluation: interface 0 is bound to a component
singleton at address 100; interfaces 1 and 2 are bound to default provider
functions 10 (a fresh allocator) and 11 (always failing with error 42). -/
def mW : Module :=
  ⟨fun i => if i = 0 then some 100 else none,
   fun i => if i = 1 then some 10 else if i = 2 then some 11 else none⟩

/-- Concrete provider semantics for evaluation: function 11 fails with error
42; every other function boxes a brand-new instance at the next fresh
address, reading nothing from the container. -/
def envW : ProviderEnv := fun fid _ h =>
  if fid = 11 then Except.error 42
  else Except.ok (h.nextAddr, { h with nextAddr := h.nextAddr + 1 })

/-- Concrete container holding a provider override (function 20) for
interface 1. -/
def cW : Container :=
  ⟨mW, fun j => if j = 1 then some 20 else none⟩

/-- Concrete container with an empty Override Map. -/
def cW0 : Container :=
  ⟨mW, fun _ => none⟩

/-- Concrete heap: the singleton at address 100 holds exactly one handle (the
one owned through the module); the allocator hands out addresses from 200. -/
def hW : Heap :=
  ⟨fun a => if a = 100 then 1 else 0, 200⟩

/-- The heap after one fresh provision from `hW`. -/
def hWa : Heap :=
  ⟨hW.counts, 201⟩

/-- The heap after two fresh provisions from `hW`. -/
def hWb : Heap :=
  ⟨hW.counts, 202⟩

/-- Provider semantics where every function is a leaf failing with error 42,
used below the top level of the recursive chain scenario. -/
def envFail : ProviderEnv := fun _ _ _ => Except.error 42

/-- A provider implementation for interface 1 that builds its dependency by
recursively providing interface 2 through the container it receives,
forwarding any construction error unchanged (the typical `?` propagation in
user provider code). -/
def midFn (c : Container) (h : Heap) : Except Err (Addr × Heap) :=
  match c.provide envFail h 2 with
  | some r => r
  | none => Except.error 0

/-- Chain provider semantics: function 12 is the recursive middle provider,
every other function is the failing leaf. -/
def envChain : ProviderEnv := fun fid c h =>
  if fid = 12 then midFn c h else envFail fid c h

/-- Chain container: interface 1 is bound to default provider 12 (which in
turn provides interface 2); interface 2 is bound to default provider 11 (the
failing leaf); no component bindings, no overrides. -/
def cChain : Container :=
  ⟨⟨fun _ => none, fun i => if i = 1 then some 12 else if i = 2 then some 11 else none⟩,
   fun _ => none⟩

/-- Low-level provider semantics for the override-scoping counterexample:
function 13 (an override for interface 2) fails with error 7, every other
function fails with error 42. -/
def envCexLow : ProviderEnv := fun fid _ _ =>
  if fid = 13 then Except.error 7 else Except.error 42

/-- A provider implementation for interface 1 that recursively provides
interface 2 through the container it receives and forwards the result. -/
def midCex (c : Container) (h : Heap) : Except Err (Addr × Heap) :=
  match c.provide envCexLow h 2 with
  | some r => r
  | none => Except.error 0

/-- Provider semantics for the override-scoping counterexample: function 12
is the recursive middle provider for interface 1, the rest is `envCexLow`. -/
def envCex : ProviderEnv := fun fid c h =>
  if fid = 12 then midCex c h else envCexLow fid c h

/-- Claim C1: `provide(I)` resolves in override-first order.  If the Override
Map holds a provider override for `I`, the result is exactly the override
factory applied to the container (so the default provider is never consulted:
the result is fully determined by the override function alone); otherwise the
result is exactly the default provider implementation applied to the
container.  Holds for every call, i.e. for every heap. -/
theorem provide_dispatch_order (env : ProviderEnv) (c : Container) (h : Heap) (i : Iface) :
    (∀ fid, c.provider_overrides i = some fid →
      c.provide env h i = some (env fid c h)) ∧
    (c.provider_overrides i = none →
      ∀ dfid, c.module.defaultProviders i = some dfid →
        c.provide env h i = some (env dfid c h)) := by
  constructor
  · intro fid hov
    simp [Container.provide, hov]
  · intro hov dfid hd
    simp [Container.provide, hov, hd]

/-- Witness for C1 at concrete inputs: with the override registered for
interface 1 the override function 20 is invoked; without it the default
provider 10 is invoked. -/
theorem provide_dispatch_order_witness :
    cW.provide envW hW 1 = some (envW 20 cW hW) ∧
    cW0.provide envW hW 1 = some (envW 10 cW0 hW) :=
  ⟨(provide_dispatch_order envW cW hW 1).1 20 rfl,
   (provide_dispatch_order envW cW0 hW 1).2 rfl 10 rfl⟩

/-- Claim C2: every `resolve` call for a component interface returns a shared
handle to the fixed singleton address `a` held by the module, so any two calls return
handles to the identical instance; the only heap change is one increment of
the strong count at `a` — no allocation happens (`nextAddr` is unchanged) and
no other count is touched. -/
theorem resolve_singleton_identity (c : Container) (i : Iface) (a : Addr)
    (hb : c.module.components i = some a) (h : Heap) :
    c.resolve h i = some (a, h.incr a) ∧
    (h.incr a).nextAddr = h.nextAddr ∧
    (h.incr a).counts a = h.counts a + 1 ∧
    ∀ b, b ≠ a → (h.incr a).counts b = h.counts b := by
  refine ⟨by simp [Container.resolve, hb], rfl, by simp [Heap.incr], ?_⟩
  intro b hba
  simp [Heap.incr, hba]

/-- Witness for C2 at concrete inputs: resolving interface 0 twice returns
address 100 both times, with no allocation. -/
theorem resolve_singleton_identity_witness :
    cW.resolve hW 0 = some (100, hW.incr 100) ∧
    cW.resolve (hW.incr 100) 0 = some (100, (hW.incr 100).incr 100) :=
  ⟨(resolve_singleton_identity cW 0 100 rfl hW).1,
   (resolve_singleton_identity cW 0 100 rfl (hW.incr 100)).1⟩

/-- Claim C3: `resolve_mut` succeeds (returning the singleton) exactly when
the strong count of the underlying allocation is one; in particular, while an
externally obtained shared handle is live (count raised above one by a
`resolve` call) it returns `none`, and once that handle is dropped (count
back to one) the same call succeeds. -/
theorem resolve_mut_iff_unique_handle (c : Container) (i : Iface) (a : Addr)
    (hb : c.module.components i = some a) (h : Heap) :
    (c.resolve_mut h i = some a ↔ h.counts a = 1) ∧
    (1 ≤ h.counts a → ∀ a1 h1, c.resolve h i = some (a1, h1) →
      c.resolve_mut h1 i = none) ∧
    (h.counts a = 1 → ∀ a1 h1, c.resolve h i = some (a1, h1) →
      c.resolve_mut (h1.dropHandle a1) i = some a) := by
  refine ⟨?_, ?_, ?_⟩
  · constructor
    · intro he
      by_contra hne
      simp [Container.resolve_mut, hb, hne] at he
    · intro he
      simp [Container.resolve_mut, hb, he]
  · intro hpos a1 h1 hres
    simp [Container.resolve, hb] at hres
    obtain ⟨rfl, rfl⟩ := hres
    simp [Container.resolve_mut, hb, Heap.incr]
    omega
  · intro hone a1 h1 hres
    simp [Container.resolve, hb] at hres
    obtain ⟨rfl, rfl⟩ := hres
    simp [Container.resolve_mut, hb, Heap.dropHandle, Heap.incr, hone]

/-- Witness for C3 at concrete inputs: on `hW` the count of address 100 is
one, so exclusive access succeeds; after one `resolve` it fails; after
dropping that handle it succeeds again. -/
theorem resolve_mut_iff_unique_handle_witness :
    cW.resolve_mut hW 0 = some 100 ∧
    cW.resolve_mut (hW.incr 100) 0 = none ∧
    cW.resolve_mut ((hW.incr 100).dropHandle 100) 0 = some 100 :=
  ⟨(resolve_mut_iff_unique_handle cW 0 100 rfl hW).1.mpr rfl,
   (resolve_mut_iff_unique_handle cW 0 100 rfl hW).2.1 (by decide) 100 (hW.incr 100) rfl,
   (resolve_mut_iff_unique_handle cW 0 100 rfl hW).2.2 rfl 100 (hW.incr 100) rfl⟩

/-- Claim C4: `provide` forwards a provider construction error unchanged: if
the invoked construction routine (override factory or default provider)
returns the error value `e`, then `provide` returns exactly `some (error e)`
— no inspection, wrapping, retrying or suppression. -/
theorem provide_error_transparent (env : ProviderEnv) (c : Container) (h : Heap)
    (i : Iface) (e : Err) :
    (∀ fid, c.provider_overrides i = some fid → env fid c h = Except.error e →
      c.provide env h i = some (Except.error e)) ∧
    (c.provider_overrides i = none →
      ∀ dfid, c.module.defaultProviders i = some dfid → env dfid c h = Except.error e →
        c.provide env h i = some (Except.error e)) := by
  constructor
  · intro fid hov herr
    simp [Container.provide, hov, herr]
  · intro hov dfid hd herr
    simp [Container.provide, hov, hd, herr]

/-- Witness for C4 on a two-level recursive chain: the provider for
interface 1 recursively provides interface 2, whose provider fails with
error 42; the error reaches the top-level caller unchanged. -/
theorem provide_error_transparent_witness :
    envChain 12 cChain hW = Except.error 42 ∧
    cChain.provide envChain hW 1 = some (Except.error 42) :=
  ⟨rfl, (provide_error_transparent envChain cChain hW 1 42).2 rfl 12 rfl rfl⟩

/-- A fresh-allocating provider function: `envW` at any identity other than
11 boxes a brand-new instance. -/
theorem freshW : FreshProvider (envW 10) := by
  intro c h a h' hx
  simp [envW] at hx
  obtain ⟨rfl, rfl⟩ := hx
  exact ⟨Nat.le_refl _, Nat.lt_succ_self _⟩

/-- Claim C5: with no override registered, every `provide(I)` call
re-executes the default provider factory on the current state; for a factory
that constructs a brand-new boxed instance (no intentional internal sharing),
two successive `provide(I)` calls never return the same instance. -/
theorem provide_fresh_each_call (env : ProviderEnv) (c : Container) (i : Iface) (fid : PFnId)
    (hno : c.provider_overrides i = none)
    (hd : c.module.defaultProviders i = some fid)
    (hf : FreshProvider (env fid)) :
    ∀ h a1 h1 a2 h2, c.provide env h i = some (Except.ok (a1, h1)) →
      c.provide env h1 i = some (Except.ok (a2, h2)) → a1 ≠ a2 := by
  intro h a1 h1 a2 h2 hp1 hp2
  simp [Container.provide, hno, hd] at hp1 hp2
  have b1 := hf c h a1 h1 hp1
  have b2 := hf c h1 a2 h2 hp2
  exact Nat.ne_of_lt (Nat.lt_of_lt_of_le b1.2 b2.1)

/-- Witness for C5 at concrete inputs: two successive `provide` calls for
interface 1 return the distinct fresh addresses 200 and 201. -/
theorem provide_fresh_each_call_witness :
    cW0.provide envW hW 1 = some (Except.ok (200, hWa)) ∧
    cW0.provide envW hWa 1 = some (Except.ok (201, hWb)) ∧
    (200 : Addr) ≠ 201 :=
  ⟨rfl, rfl,
   provide_fresh_each_call envW cW0 1 10 rfl rfl freshW hW 200 hWa 201 hWb rfl rfl⟩

/-- Counterexample to C6 as stated: registering a provider override for
interface 2 changes the result of providing interface 1 ≠ 2, because the
provider bound to interface 1 recursively provides interface 2 through the
container it receives (and therefore sees the override).  Without the
override, `provide(1)` forwards error 42 from the default leaf provider of
interface 2; with override 13 registered for interface 2, the same call
forwards error 7 from the override. -/
theorem override_scoping_cex :
    (1 : Iface) ≠ 2 ∧
    cChain.provide envCex hW 1 = some (Except.error 42) ∧
    (withProviderOverride cChain 2 13).provide envCex hW 1 = some (Except.error 7) ∧
    (withProviderOverride cChain 2 13).provide envCex hW 1 ≠ cChain.provide envCex hW 1 := by
  refine ⟨by decide, rfl, rfl, ?_⟩
  intro heq
  rw [show (withProviderOverride cChain 2 13).provide envCex hW 1
        = some (Except.error 7) from rfl,
      show cChain.provide envCex hW 1 = some (Except.error 42) from rfl] at heq
  simp at heq

/-- Claim C6 (amended): registering a provider override for interface `i`
does not change the dispatch for any other interface `j ≠ i` — the Override
Map lookup for `j` is unchanged (exact-key match only, never a different
interface whose underlying value coincides), the component operations
(`resolve`, `resolve_ref`, `resolve_mut`) on `j` are unchanged, and the
result of `provide(j)` is unchanged whenever the factory selected for `j` is
insensitive to the registered override (i.e. does not itself provide `i`
through the container). -/
theorem override_frame_other_interfaces (env : ProviderEnv) (c : Container) (h : Heap)
    (i j : Iface) (ofid : PFnId) (hne : j ≠ i) :
    (withProviderOverride c i ofid).provider_overrides j = c.provider_overrides j ∧
    (withProviderOverride c i ofid).resolve h j = c.resolve h j ∧
    (withProviderOverride c i ofid).resolve_ref j = c.resolve_ref j ∧
    (withProviderOverride c i ofid).resolve_mut h j = c.resolve_mut h j ∧
    (∀ fid, c.provider_overrides j = some fid →
      env fid (withProviderOverride c i ofid) h = env fid c h →
      (withProviderOverride c i ofid).provide env h j = c.provide env h j) ∧
    (c.provider_overrides j = none →
      ∀ dfid, c.module.defaultProviders j = some dfid →
        env dfid (withProviderOverride c i ofid) h = env dfid c h →
        (withProviderOverride c i ofid).provide env h j = c.provide env h j) := by
  refine ⟨by simp [withProviderOverride, hne], rfl, rfl, rfl, ?_, ?_⟩
  · intro fid hov hins
    simp [Container.provide, withProviderOverride, hne, hov]
    exact hins
  · intro hov dfid hd hins
    simp [Container.provide, withProviderOverride, hne, hov, hd]
    exact hins

/-- Witness for the amended C6 at concrete inputs: registering an override
for interface 3 leaves `provide` for interface 1 (whose override factory 20
reads nothing from the container) unchanged. -/
theorem override_frame_other_interfaces_witness :
    (withProviderOverride cW 3 30).provide envW hW 1 = cW.provide envW hW 1 :=
  (override_frame_other_interfaces envW cW hW 3 1 30 (by decide)).2.2.2.2.1 20 rfl rfl

/-- Claim C7: for an interface the module binds to a component, `resolve`
and `resolve_ref` always succeed — there is no failure branch; `resolve`
returns the shared handle and `resolve_ref` the borrowed reference to the
same singleton.  (`provide` is the only operation whose result type carries
an error, and `resolve_mut` signals unavailability by an ordinary `Option`
absence, as its result type shows.) -/
theorem resolve_family_infallible (c : Container) (i : Iface) (a : Addr)
    (hb : c.module.components i = some a) (h : Heap) :
    c.resolve h i = some (a, h.incr a) ∧ c.resolve_ref i = some a := by
  constructor
  · simp [Container.resolve, hb]
  · simp [Container.resolve_ref, hb]

/-- Witness for C7 at concrete inputs: interface 0 is bound, so both
operations succeed. -/
theorem resolve_family_infallible_witness :
    cW.resolve hW 0 = some (100, hW.incr 100) ∧ cW.resolve_ref 0 = some 100 :=
  resolve_family_infallible cW 0 100 rfl hW

/-- Claim C8: a failed `provide` call leaves the state unchanged — the
container (module and Override Map) and the heap after the failed step are
exactly those before it, and any subsequent sequence of operations produces
exactly the results it would have produced had the failed call never
happened. -/
theorem provide_error_leaves_state (env : ProviderEnv) (c : Container) (h : Heap)
    (i : Iface) (e : Err)
    (hfail : c.provide env h i = some (Except.error e)) :
    runOp env (c, h) (Op.opProvide i) = ((c, h), Out.outProvided (Except.error e)) ∧
    ∀ ops, run env (runOp env (c, h) (Op.opProvide i)).1 ops = run env (c, h) ops := by
  have h1 : runOp env (c, h) (Op.opProvide i) = ((c, h), Out.outProvided (Except.error e)) := by
    simp [runOp, hfail]
  exact ⟨h1, fun ops => by rw [h1]⟩

/-- Witness for C8 at concrete inputs: providing interface 2 fails with
error 42 and the state is exactly as before. -/
theorem provide_error_leaves_state_witness :
    runOp envW (cW0, hW) (Op.opProvide 2) = ((cW0, hW), Out.outProvided (Except.error 42)) :=
  (provide_error_leaves_state envW cW0 hW 2 42 rfl).1

/-- Claim C9: `Container::default` equals `ContainerBuilder::new().build()`,
its Override Map is empty, and therefore `provide` on a default container
always invokes the module default provider implementation, never an
override. -/
theorem default_container_empty_overrides (m : Module) (env : ProviderEnv) (h : Heap)
    (i : Iface) :
    Container.defaultContainer m = ContainerBuilder.new.build m ∧
    (Container.defaultContainer m).provider_overrides i = none ∧
    ∀ dfid, m.defaultProviders i = some dfid →
      (Container.defaultContainer m).provide env h i =
        some (env dfid (Container.defaultContainer m) h) := by
  refine ⟨rfl, rfl, ?_⟩
  intro dfid hd
  simp [Container.provide, Container.defaultContainer, ContainerBuilder.build,
    ContainerBuilder.new, hd]

/-- Witness for C9 at concrete inputs: a default container over `mW`
provides interface 1 through the default provider 10. -/
theorem default_container_empty_overrides_witness :
    (Container.defaultContainer mW).provide envW hW 1 =
      some (envW 10 (Container.defaultContainer mW) hW) :=
  (default_container_empty_overrides mW envW hW 1).2.2 10 rfl

/-- Claim C10: `resolve_ref` and `resolve` agree on identity — the reference
returned by `resolve_ref` is exactly the underlying instance of the shared
handle returned by `resolve` on the same container, for every interface and
every heap. -/
theorem resolve_ref_agrees_resolve (c : Container) (h : Heap) (i : Iface) :
    c.resolve_ref i = (c.resolve h i).map Prod.fst := by
  cases hb : c.module.components i <;>
    simp [Container.resolve, Container.resolve_ref, hb]

end Shaku
